import Mathlib

/-!
Verification of the MCP resume server (`puch.py`).

The program is a single procedure: resolve a local resume file, convert it to
a Markdown string (a dedicated page-text path for PDFs, a generic converter
for document formats, a raw-text fallback for unknown extensions), optionally
POST the Markdown to a configured endpoint, and return the Markdown.

Shallow embedding conventions:
* Python strings are Lean `String`s; `str.strip()` is `pyStrip` (drop
  whitespace on both ends of the character list) and `s.startswith(p)` is
  `py_startswith`.
* Each external effect one invocation can observe is an input packaged in
  `World`: path resolution and existence, the pages delivered by the PDF
  backend, the outcome of the generic converter, the raw UTF-8 read, and the
  HTTP POST outcome.  Code that can raise an exception is modelled with
  `Except String`, the error being the stringified exception.
* Raising `McpError(ErrorData(code, message))` is the `ToolResult.err`
  constructor; returning a string is `ToolResult.ok`.
* The side effect of the POST is made visible: `resume` returns, next to its
  result, the JSON payload it sent (`none` when no submission was attempted).
-/

namespace Puch

/-- Python `str.strip()` on a character list: drop whitespace from both ends. -/
def stripChars (l : List Char) : List Char :=
  ((l.dropWhile Char.isWhitespace).reverse.dropWhile Char.isWhitespace).reverse

/-- Python `str.strip()`. -/
def pyStrip (s : String) : String :=
  ⟨stripChars s.data⟩

/-- Python `s.startswith(p)`: `p` is an initial segment of `s`. -/
def py_startswith (s p : String) : Bool :=
  s.data.take p.data.length == p.data

/-- `mcp.types.INTERNAL_ERROR` (JSON-RPC internal error code). -/
def INTERNAL_ERROR : Int := -32603

/-- The module-level configuration constants of `puch.py`, gathered in a
structure so that the claims can quantify over configurations. -/
structure Config where
  TOKEN : String
  MY_NUMBER : String
  PUCH_MCP_ENDPOINT : String
deriving Repr, DecidableEq

/-- The concrete constants of the source module. -/
def sourceConfig : Config :=
  { TOKEN := "<YOUR_APPLICATION_KEY>"
    MY_NUMBER := "919XXXXXXXXX"
    PUCH_MCP_ENDPOINT := "https://puch.example.com/mcp/receive_resume" }

/-- A configuration with the endpoint unset (the empty string is falsy in
Python, so submission is skipped). -/
def offlineConfig : Config :=
  { TOKEN := "<YOUR_APPLICATION_KEY>"
    MY_NUMBER := "919XXXXXXXXX"
    PUCH_MCP_ENDPOINT := "" }

/-- A PDF as the PDF backend presents it: a page list, where `extract_text()`
on a page gives `none` (no text object) or a string. -/
structure PdfDoc where
  pages : List (Option String)
deriving Repr, DecidableEq

/-- `pdf_to_markdown` (`puch.py` lines 47‑57): for each page take
`extract_text()`; when it is truthy (neither `None` nor the empty string)
keep its stripped form; join the kept parts with a blank line and strip the
joined text. -/
def pdf_to_markdown (pdf : PdfDoc) : String :=
  let text_parts := pdf.pages.filterMap (fun page_text =>
    match page_text with
    | none => none
    | some t => if t = "" then none else some (pyStrip t))
  pyStrip (String.intercalate "\n\n" text_parts)

/-- The formula the specification gives for PDF conversion: the page texts
that are present, with pages yielding no text skipped, each trimmed of
surrounding whitespace, joined by a blank-line separator in page order.
Stated from the words of the specification, for comparison with
`pdf_to_markdown`. -/
def spec_pdf_markdown (pages : List (Option String)) : String :=
  String.intercalate "\n\n" (((pages.filterMap id).filter (fun t => t != "")).map pyStrip)

/-- The JSON body `{phone, resume_markdown}` of the submission POST. -/
structure SubmissionPayload where
  phone : String
  resume_markdown : String
deriving Repr, DecidableEq

/-- The headers of the submission POST. -/
def submissionHeaders (app_key : String) : List (String × String) :=
  [("Authorization", "Bearer " ++ app_key), ("Content-Type", "application/json")]

/-- `submit_to_puch` (lines 59‑75): build the JSON payload and POST it.  The
network is the input `post`: `.ok (code, text)` when an HTTP response
arrived, `.error e` when the client raised `httpx.HTTPError` with message
`e`.  Returns the payload that was sent together with the
`(status_code, response_text)` pair; a transport error becomes the sentinel
pair `(0, str(e))`. -/
def submit_to_puch (post : Except String (Nat × String))
    (_endpoint _app_key phone markdown_text : String) :
    SubmissionPayload × Nat × String :=
  let payload : SubmissionPayload := ⟨phone, markdown_text⟩
  match post with
  | .ok (code, text) => (payload, code, text)
  | .error e => (payload, 0, e)

/-- The external effects one invocation of the `resume` tool can observe. -/
structure World where
  /-- The `resume_path` argument of the call. -/
  resume_path : String
  /-- `str(Path(resume_path).expanduser())`. -/
  resolvedPath : String
  /-- `path.exists()`. -/
  pathExists : Bool
  /-- `path.suffix.lower()`. -/
  suffix : String
  /-- Opening the file with the PDF backend: the page list, or the message of
  the exception raised while opening or extracting. -/
  pdfExtract : Except String PdfDoc
  /-- `pypandoc.convert_file(str(path), 'md')`: the Markdown, or the message
  of the exception raised. -/
  pandocConvert : Except String String
  /-- `path.read_text(encoding="utf-8", errors="ignore")`: the text, or the
  message of the exception raised. -/
  rawRead : Except String String
  /-- The HTTP POST outcome: `.ok (status, body)` for a response,
  `.error e` for a transport-level `httpx.HTTPError`. -/
  postResult : Except String (Nat × String)

/-- The extensions routed to the generic converter (`puch.py` line 98). -/
def textFormats : List String := [".docx", ".doc", ".odt", ".md", ".txt"]

/-- The conversion dispatch of `resume` (lines 94‑107): PDFs through
`pdf_to_markdown`; the generic-converter formats through pandoc with no
fallback; any other extension through pandoc with a raw-text fallback.
`.error e` means the block raised an exception with message `e`. -/
def convert_file_to_markdown (w : World) : Except String String :=
  if w.suffix = ".pdf" then
    w.pdfExtract.map pdf_to_markdown
  else if w.suffix ∈ textFormats then
    w.pandocConvert
  else
    match w.pandocConvert with
    | .ok t => .ok t
    | .error _ => w.rawRead

/-- The result of one call of the tool: a returned string, or a raised
`McpError` carrying an `ErrorData(code, message)`. -/
inductive ToolResult where
  | ok (text : String)
  | err (code : Int) (message : String)
deriving Repr, DecidableEq

/-- The `resume` tool (lines 77‑136).  Returns its result together with the
payload POSTed to the endpoint (`none` when no submission was attempted). -/
def resume (cfg : Config) (w : World) : ToolResult × Option SubmissionPayload :=
  if !w.pathExists then
    (.ok ("<error>Resume file not found at: " ++ w.resolvedPath ++ "</error>"), none)
  else
    match convert_file_to_markdown w with
    | .error e =>
        (.ok ("<error>Failed to convert resume to markdown: " ++ e ++ "</error>"), none)
    | .ok markdown_text =>
        if markdown_text = "" ∨ pyStrip markdown_text = "" then
          (.ok "<error>Converted resume is empty.</error>", none)
        else if cfg.PUCH_MCP_ENDPOINT ≠ "" ∧
            py_startswith cfg.PUCH_MCP_ENDPOINT "http" = true then
          let r := submit_to_puch w.postResult cfg.PUCH_MCP_ENDPOINT cfg.TOKEN
              cfg.MY_NUMBER markdown_text
          if r.2.1 = 0 then
            (.err INTERNAL_ERROR
              ("Failed to POST resume to Puch endpoint: " ++ r.2.2), some r.1)
          else if 400 ≤ r.2.1 then
            (.err INTERNAL_ERROR
              ("Puch endpoint returned " ++ toString r.2.1 ++ ": " ++ r.2.2), some r.1)
          else
            (.ok markdown_text, some r.1)
        else
          (.ok markdown_text, none)

/-- A world in which conversion succeeds with real content and the endpoint
answers 200. -/
def okWorld : World :=
  { resume_path := "resume.pdf"
    resolvedPath := "/home/user/resume.pdf"
    pathExists := true
    suffix := ".pdf"
    pdfExtract := .ok ⟨[some "# Resume", some "Experience"]⟩
    pandocConvert := .error "unused"
    rawRead := .error "unused"
    postResult := .ok (200, "accepted") }

/-- The same file as `okWorld`, with a different endpoint response. -/
def okWorld2 : World :=
  { okWorld with postResult := .ok (201, "created") }

/-- A world in which the resolved path does not exist. -/
def missingWorld : World :=
  { resume_path := "missing.pdf"
    resolvedPath := "/home/user/missing.pdf"
    pathExists := false
    suffix := ".pdf"
    pdfExtract := .error "no such file"
    pandocConvert := .error "no such file"
    rawRead := .error "no such file"
    postResult := .error "offline" }

/-- A world in which the PDF has no extractable text at all. -/
def emptyPdfWorld : World :=
  { resume_path := "blank.pdf"
    resolvedPath := "/home/user/blank.pdf"
    pathExists := true
    suffix := ".pdf"
    pdfExtract := .ok ⟨[none, some ""]⟩
    pandocConvert := .error "unused"
    rawRead := .error "unused"
    postResult := .ok (200, "accepted") }

/-- A world with a `.txt` file on which the generic converter raises, while a
raw read would give text. -/
def pandocFailWorld : World :=
  { resume_path := "resume.txt"
    resolvedPath := "resume.txt"
    pathExists := true
    suffix := ".txt"
    pdfExtract := .error "not a pdf"
    pandocConvert := .error "pandoc not found"
    rawRead := .ok "hello resume"
    postResult := .ok (200, "ok") }

/-- The submission client always sends the payload `{phone, resume_markdown}`
built from its arguments, whatever the network does. -/
lemma submit_to_puch_payload (post : Except String (Nat × String))
    (endpoint app_key phone md : String) :
    (submit_to_puch post endpoint app_key phone md).1 = ⟨phone, md⟩ := by
  cases post with
  | ok p => cases p; rfl
  | error e => rfl

/-- A Markdown blob with non-whitespace content passes the emptiness guard. -/
lemma emptiness_guard_false (md : String) (hne : pyStrip md ≠ "") :
    ¬(md = "" ∨ pyStrip md = "") := by
  rintro (rfl | h)
  · exact hne rfl
  · exact hne h

/-- A string built as error tag, text, interpolated part, closing tag is of
the wrapped `<error>` shape. -/
lemma error_wrapped (a p : String) :
    ∃ m, "<error>" ++ a ++ p ++ "</error>" = "<error>" ++ m ++ "</error>" :=
  ⟨a ++ p, by simp [String.append_assoc]⟩

/-- The page filter of `pdf_to_markdown` equals the filter-then-trim chain of
the specification formula. -/
lemma pdf_parts_eq (pages : List (Option String)) :
    pages.filterMap (fun page_text =>
      match page_text with
      | none => none
      | some t => if t = "" then none else some (pyStrip t))
    = ((pages.filterMap id).filter (fun t => t != "")).map pyStrip := by
  induction pages with
  | nil => rfl
  | cons p ps ih =>
    cases p with
    | none => simpa using ih
    | some t =>
      by_cases h : t = ""
      · subst h
        simpa using ih
      · simp [h, ih]

/-- Claim C1: when submission is attempted, the `(status, body)` pair returned
by the submission client decides the outcome.  Status 0 raises a fatal
structured error whose message embeds the transport error text; status at
least 400 raises a fatal structured error whose message embeds the status
code and the response body; in both failure cases the converted Markdown is
not returned (the result is `err`, not `ok`); otherwise (a nonzero status
below 400, the only remaining case after the first two clauses) the tool
returns the Markdown unchanged. -/
theorem resume_submission_outcome (cfg : Config) (w : World) (md : String)
    (status : Nat) (body : String)
    (hx : w.pathExists = true)
    (hc : convert_file_to_markdown w = .ok md)
    (hne : pyStrip md ≠ "")
    (hep : cfg.PUCH_MCP_ENDPOINT ≠ "" ∧ py_startswith cfg.PUCH_MCP_ENDPOINT "http" = true)
    (hsub : (submit_to_puch w.postResult cfg.PUCH_MCP_ENDPOINT cfg.TOKEN cfg.MY_NUMBER md).2
      = (status, body)) :
    (status = 0 → resume cfg w =
      (.err INTERNAL_ERROR ("Failed to POST resume to Puch endpoint: " ++ body),
       some ⟨cfg.MY_NUMBER, md⟩)) ∧
    (400 ≤ status → resume cfg w =
      (.err INTERNAL_ERROR ("Puch endpoint returned " ++ toString status ++ ": " ++ body),
       some ⟨cfg.MY_NUMBER, md⟩)) ∧
    (status ≠ 0 → status < 400 → resume cfg w = (.ok md, some ⟨cfg.MY_NUMBER, md⟩)) := by
  have hpl := submit_to_puch_payload w.postResult cfg.PUCH_MCP_ENDPOINT cfg.TOKEN
    cfg.MY_NUMBER md
  have hguard := emptiness_guard_false md hne
  refine ⟨?_, ?_, ?_⟩
  · intro h0
    simp [resume, hx, hc, hguard, hep, hsub, hpl, h0]
  · intro h4
    have h0 : status ≠ 0 := by omega
    simp [resume, hx, hc, hguard, hep, hsub, hpl, h0, h4]
  · intro h0 hlt
    have h4 : ¬ 400 ≤ status := by omega
    simp [resume, hx, hc, hguard, hep, hsub, hpl, h0, h4]

/-- Witness for C1: in `okWorld` the endpoint answers `(200, "accepted")` and
the tool returns the converted Markdown, having sent it as the payload. -/
theorem resume_submission_outcome_witness :
    pyStrip "# Resume\n\nExperience" ≠ "" ∧
    resume sourceConfig okWorld =
      (.ok "# Resume\n\nExperience",
       some ⟨"919XXXXXXXXX", "# Resume\n\nExperience"⟩) :=
  ⟨by decide,
   (resume_submission_outcome sourceConfig okWorld "# Resume\n\nExperience" 200 "accepted"
      rfl rfl (by decide) (by decide) rfl).2.2 (by decide) (by decide)⟩

/-- Claim C2, counterexample: a page whose extracted text is a single space is
truthy (it yields extractable text in the sense of the code), yet the
produced Markdown differs from the spec formula of trimmed page texts joined
by a blank line, because the code strips the joined text once more at the
end. -/
theorem pdf_to_markdown_join_counterexample :
    (([some " ", some "x"] : List (Option String)).all (fun pt => pt.getD "" != "") = true) ∧
    pdf_to_markdown ⟨[some " ", some "x"]⟩ ≠ spec_pdf_markdown [some " ", some "x"] := by
  decide

/-- Claim C2, amended: for every PDF, the produced Markdown equals the
per-page texts, each trimmed of surrounding whitespace, joined by a double
newline in page order with pages yielding no text skipped, the joined result
then trimmed of surrounding whitespace once more. -/
theorem pdf_to_markdown_eq_trimmed_join (pdf : PdfDoc) :
    pdf_to_markdown pdf = pyStrip (spec_pdf_markdown pdf.pages) := by
  unfold pdf_to_markdown spec_pdf_markdown
  rw [pdf_parts_eq]

/-- Claim C3: with a successfully converted non-empty Markdown, submission is
attempted exactly when the configured endpoint is a non-empty string that
starts with "http"; otherwise the Markdown is returned verbatim with no
submission. -/
theorem resume_submission_gating (cfg : Config) (w : World) (md : String)
    (hx : w.pathExists = true)
    (hc : convert_file_to_markdown w = .ok md)
    (hne : pyStrip md ≠ "") :
    ((resume cfg w).2.isSome = true ↔
      cfg.PUCH_MCP_ENDPOINT ≠ "" ∧ py_startswith cfg.PUCH_MCP_ENDPOINT "http" = true) ∧
    (¬(cfg.PUCH_MCP_ENDPOINT ≠ "" ∧ py_startswith cfg.PUCH_MCP_ENDPOINT "http" = true) →
      resume cfg w = (.ok md, none)) := by
  have hguard := emptiness_guard_false md hne
  by_cases hep : cfg.PUCH_MCP_ENDPOINT ≠ "" ∧ py_startswith cfg.PUCH_MCP_ENDPOINT "http" = true
  · have h2 : (resume cfg w).2 = some (⟨cfg.MY_NUMBER, md⟩ : SubmissionPayload) := by
      simp only [resume, hx, Bool.not_true, Bool.false_eq_true, if_false, hc,
        if_neg hguard, if_pos hep]
      split
      · simp [submit_to_puch_payload]
      · split <;> simp [submit_to_puch_payload]
    refine ⟨⟨fun _ => hep, fun _ => ?_⟩, fun h => absurd hep h⟩
    rw [h2]
    rfl
  · constructor
    · simp [resume, hx, hc, hguard, hep]
    · intro _
      simp [resume, hx, hc, hguard, hep]

/-- Witness for C3: with the endpoint unset (empty string) the converted
Markdown of `okWorld` is returned and no submission is attempted. -/
theorem resume_submission_gating_witness :
    ¬(offlineConfig.PUCH_MCP_ENDPOINT ≠ "" ∧
        py_startswith offlineConfig.PUCH_MCP_ENDPOINT "http" = true) ∧
    resume offlineConfig okWorld = (.ok "# Resume\n\nExperience", none) :=
  ⟨by decide,
   (resume_submission_gating offlineConfig okWorld "# Resume\n\nExperience"
      rfl rfl (by decide)).2 (by decide)⟩

/-- Claim C4, counterexample: for an existing `.txt` file on which the
generic converter raises "pandoc not found" while the raw file holds
"hello resume", the tool returns the inline conversion error and not the raw
text, so no raw-read fallback happens for text-convertible kinds. -/
theorem resume_text_format_fallback_counterexample :
    resume sourceConfig pandocFailWorld =
      (.ok "<error>Failed to convert resume to markdown: pandoc not found</error>", none) ∧
    (resume sourceConfig pandocFailWorld).1 ≠ .ok "hello resume" := by
  decide

/-- Claim C4, amended: for an existing file of a text-convertible kind
(.docx, .doc, .odt, .md, .txt), if the generic document-to-Markdown
conversion raises, the tool surfaces the inline conversion error string
embedding the exception message; the raw UTF-8 fallback applies only to
unknown extensions. -/
theorem resume_text_format_no_fallback (cfg : Config) (w : World) (e : String)
    (hx : w.pathExists = true)
    (hs : w.suffix ∈ textFormats)
    (hp : w.pandocConvert = .error e) :
    resume cfg w =
      (.ok ("<error>Failed to convert resume to markdown: " ++ e ++ "</error>"), none) := by
  have hpdf : w.suffix ≠ ".pdf" := by
    intro h
    rw [h] at hs
    simp [textFormats] at hs
  have hc : convert_file_to_markdown w = .error e := by
    simp [convert_file_to_markdown, hpdf, hs, hp]
  simp [resume, hx, hc]

/-- Witness for the amended C4 at the concrete world `pandocFailWorld`. -/
theorem resume_text_format_no_fallback_witness :
    pandocFailWorld.suffix ∈ textFormats ∧
    resume sourceConfig pandocFailWorld =
      (.ok "<error>Failed to convert resume to markdown: pandoc not found</error>", none) :=
  ⟨by decide,
   resume_text_format_no_fallback sourceConfig pandocFailWorld "pandoc not found"
     rfl (by decide) rfl⟩

/-- Claim C5: whenever the resolved path does not exist, the tool returns the
string `<error>Resume file not found at: {resolved_path}</error>` (an `ok`
result, so nothing is thrown) and never attempts submission. -/
theorem resume_file_not_found (cfg : Config) (w : World)
    (h : w.pathExists = false) :
    resume cfg w =
      (.ok ("<error>Resume file not found at: " ++ w.resolvedPath ++ "</error>"), none) := by
  simp [resume, h]

/-- Witness for C5 at the concrete world `missingWorld`. -/
theorem resume_file_not_found_witness :
    missingWorld.pathExists = false ∧
    resume sourceConfig missingWorld =
      (.ok "<error>Resume file not found at: /home/user/missing.pdf</error>", none) :=
  ⟨rfl, (resume_file_not_found sourceConfig missingWorld rfl).trans (by decide)⟩

/-- Claim C6: when conversion yields an empty or all-whitespace string, the
tool returns the distinct empty-result inline error and does not proceed to
submission. -/
theorem resume_empty_result (cfg : Config) (w : World) (md : String)
    (hx : w.pathExists = true)
    (hc : convert_file_to_markdown w = .ok md)
    (he : pyStrip md = "") :
    resume cfg w = (.ok "<error>Converted resume is empty.</error>", none) := by
  simp [resume, hx, hc, he]

/-- Witness for C6: a PDF with zero extractable text converts to the empty
string and the tool returns the empty-result error without submitting. -/
theorem resume_empty_result_witness :
    convert_file_to_markdown emptyPdfWorld = .ok "" ∧
    resume sourceConfig emptyPdfWorld =
      (.ok "<error>Converted resume is empty.</error>", none) :=
  ⟨rfl, resume_empty_result sourceConfig emptyPdfWorld "" rfl rfl rfl⟩

/-- Claim C7: a transport-level exception during the POST makes the
submission client return the sentinel pair `(0, stringified-exception)`
instead of propagating, and a real HTTP status (any positive status code)
never yields status 0, so 0 uniquely marks transport failure. -/
theorem submit_to_puch_sentinel (endpoint app_key phone md e : String) :
    submit_to_puch (.error e) endpoint app_key phone md = (⟨phone, md⟩, 0, e) ∧
    (∀ c t, 1 ≤ c → (submit_to_puch (.ok (c, t)) endpoint app_key phone md).2.1 ≠ 0) := by
  constructor
  · rfl
  · intro c t hc
    simp [submit_to_puch]
    omega

/-- Witness for C7: a concrete refused connection gives `(0, message)` while
a concrete 200 response does not give status 0. -/
theorem submit_to_puch_sentinel_witness :
    submit_to_puch (.error "connection refused") "https://e" "k" "p" "md"
      = (⟨"p", "md"⟩, 0, "connection refused") ∧
    (submit_to_puch (.ok (200, "ok")) "https://e" "k" "p" "md").2.1 ≠ 0 :=
  ⟨(submit_to_puch_sentinel "https://e" "k" "p" "md" "connection refused").1,
   (submit_to_puch_sentinel "https://e" "k" "p" "md" "connection refused").2 200 "ok"
     (by decide)⟩

/-- Claim C8: two invocations on the same unchanged file (all file-derived
observations equal) with a functioning endpoint (an HTTP response with a
nonzero status below 400 in each call, the response content free to differ)
return the same string; the conversion-and-return pipeline is deterministic
in the file content. -/
theorem resume_deterministic (cfg : Config) (w1 w2 : World) (c1 c2 : Nat) (t1 t2 : String)
    (hpath : w1.pathExists = w2.pathExists)
    (hres : w1.resolvedPath = w2.resolvedPath)
    (hsuf : w1.suffix = w2.suffix)
    (hpdf : w1.pdfExtract = w2.pdfExtract)
    (hpan : w1.pandocConvert = w2.pandocConvert)
    (hraw : w1.rawRead = w2.rawRead)
    (hp1 : w1.postResult = .ok (c1, t1)) (hp2 : w2.postResult = .ok (c2, t2))
    (hc10 : c1 ≠ 0) (hc14 : c1 < 400) (hc20 : c2 ≠ 0) (hc24 : c2 < 400) :
    (resume cfg w1).1 = (resume cfg w2).1 := by
  have hcv : convert_file_to_markdown w1 = convert_file_to_markdown w2 := by
    unfold convert_file_to_markdown
    rw [hsuf, hpdf, hpan, hraw]
  unfold resume
  rw [hpath, hres, hcv, hp1, hp2]
  simp only [submit_to_puch]
  split
  · rfl
  · split
    · rfl
    · split
      · rfl
      · split
        · simp [hc10, hc20, Nat.not_le.mpr hc14, Nat.not_le.mpr hc24]
        · rfl

/-- Witness for C8: the same file answered by 200 and by 201 returns the same
Markdown both times. -/
theorem resume_deterministic_witness :
    (resume sourceConfig okWorld).1 = (resume sourceConfig okWorld2).1 ∧
    (resume sourceConfig okWorld).1 = .ok "# Resume\n\nExperience" :=
  ⟨resume_deterministic sourceConfig okWorld okWorld2 200 201 "accepted" "created"
     rfl rfl rfl rfl rfl rfl rfl rfl (by decide) (by decide) (by decide) (by decide),
   by decide⟩

/-- Claim C9: whenever a submission was attempted and the tool returned a
string, the `resume_markdown` field of the JSON payload that was sent is
exactly the returned Markdown text. -/
theorem resume_payload_matches_return (cfg : Config) (w : World) (s : String)
    (pl : SubmissionPayload)
    (h : resume cfg w = (.ok s, some pl)) :
    pl.resume_markdown = s := by
  simp only [resume] at h
  split at h
  · simp at h
  · split at h
    · simp at h
    · rename_i md heq
      split at h
      · simp at h
      · split at h
        · split at h
          · simp at h
          · split at h
            · simp at h
            · rw [submit_to_puch_payload] at h
              simp only [Prod.mk.injEq, ToolResult.ok.injEq, Option.some.injEq] at h
              obtain ⟨rfl, rfl⟩ := h
              rfl
        · simp at h

/-- Witness for C9 at the concrete world `okWorld`. -/
theorem resume_payload_matches_return_witness :
    resume sourceConfig okWorld =
      (.ok "# Resume\n\nExperience",
       some ⟨"919XXXXXXXXX", "# Resume\n\nExperience"⟩) ∧
    (SubmissionPayload.mk "919XXXXXXXXX" "# Resume\n\nExperience").resume_markdown
      = "# Resume\n\nExperience" :=
  ⟨by decide,
   resume_payload_matches_return sourceConfig okWorld "# Resume\n\nExperience"
     ⟨"919XXXXXXXXX", "# Resume\n\nExperience"⟩ (by decide)⟩

/-- Claim C10: every string the tool returns (as opposed to raising) is
either wrapped as `<error>...</error>` or contains at least one
non-whitespace character; the tool never returns a blank non-error string. -/
theorem resume_ok_classified (cfg : Config) (w : World) (s : String)
    (h : (resume cfg w).1 = .ok s) :
    (∃ m, s = "<error>" ++ m ++ "</error>") ∨ pyStrip s ≠ "" := by
  simp only [resume] at h
  split at h
  · simp only [ToolResult.ok.injEq] at h
    left
    rw [← h]
    have hl : ("<error>Resume file not found at: " : String)
        = "<error>" ++ "Resume file not found at: " := by decide
    rw [hl]
    exact error_wrapped _ _
  · split at h
    · simp only [ToolResult.ok.injEq] at h
      left
      rw [← h]
      have hl : ("<error>Failed to convert resume to markdown: " : String)
          = "<error>" ++ "Failed to convert resume to markdown: " := by decide
      rw [hl]
      exact error_wrapped _ _
    · rename_i md heq
      split at h
      · simp only [ToolResult.ok.injEq] at h
        left
        exact ⟨"Converted resume is empty.", by rw [← h]; decide⟩
      · rename_i hguard
        split at h
        · split at h
          · simp at h
          · split at h
            · simp at h
            · simp only [ToolResult.ok.injEq] at h
              right
              rw [← h]
              intro hcon
              exact hguard (Or.inr hcon)
        · simp only [ToolResult.ok.injEq] at h
          right
          rw [← h]
          intro hcon
          exact hguard (Or.inr hcon)

/-- Witness for C10 at the concrete world `missingWorld`. -/
theorem resume_ok_classified_witness :
    (resume sourceConfig missingWorld).1
      = .ok "<error>Resume file not found at: /home/user/missing.pdf</error>" ∧
    ((∃ m, "<error>Resume file not found at: /home/user/missing.pdf</error>"
        = "<error>" ++ m ++ "</error>") ∨
      pyStrip "<error>Resume file not found at: /home/user/missing.pdf</error>" ≠ "") :=
  ⟨by decide,
   resume_ok_classified sourceConfig missingWorld
     "<error>Resume file not found at: /home/user/missing.pdf</error>" (by decide)⟩

end Puch
